import Mathlib

/-!
Verification model of the binaryjs request cache and query coordination
engine.  The definitions below are a shallow embedding of the TypeScript
sources:

* `src/src/core/BinaryJSFetch.ts`  — `BinaryJSFetch` (response cache,
  pending-request registry, retry loop `executeRequest`);
* `src/src/core/BinaryJSApi.ts`    — `BinaryJSApi.request` (endpoint
  lookup, validation hooks, delegation to `BinaryJSFetch.fetch`);
* `src/unnamed/part_007`           — `BinaryJSApiClient` (`query`,
  `mutate`, `invalidateQuery`, per-key `QueryState`).

Response payloads and error values are modelled as `Nat`; JavaScript
`Map`s are modelled as insertion-ordered association lists; timestamps
(`Date.now()`) are `Nat` parameters threaded explicitly.  Event-listener
notification, `localStorage` persistence, per-endpoint `requestStates`,
and the `setTimeout`-based refetch-interval timer have no bearing on any
verified property and are omitted; everything else follows the source
line by line.
-/

set_option autoImplicit false

namespace BinaryJS

/-! ### JavaScript `Map` as an insertion-ordered association list -/

/-- Lookup in a JS `Map` (`map.get(k)`). -/
def mapFind? {V : Type} : List (String × V) → String → Option V
  | [], _ => none
  | (k', v) :: rest, k => if k' = k then some v else mapFind? rest k

/-- `map.set(k, v)`: replace in place if the key exists, append otherwise. -/
def mapSet {V : Type} : List (String × V) → String → V → List (String × V)
  | [], k, v => [(k, v)]
  | (k', v') :: rest, k, v =>
      if k' = k then (k, v) :: rest else (k', v') :: mapSet rest k v

/-- JS `s.startsWith(p)`, as a structural comparison of the character
lists (kernel-reducible, unlike `String.isPrefixOf`). -/
def jsStartsWith (s p : String) : Bool :=
  p.data.isPrefixOf s.data

/-- `map.delete(k)`. -/
def mapDelete {V : Type} : List (String × V) → String → List (String × V)
  | [], _ => []
  | (k', v') :: rest, k =>
      if k' = k then rest else (k', v') :: mapDelete rest k

theorem mapFind?_mapSet_self {V : Type} (l : List (String × V)) (k : String) (v : V) :
    mapFind? (mapSet l k v) k = some v := by
  induction l with
  | nil => simp [mapSet, mapFind?]
  | cons hd tl ih =>
      obtain ⟨k', v'⟩ := hd
      by_cases h : k' = k
      · simp [mapSet, h, mapFind?]
      · simp [mapSet, h, mapFind?, ih]

theorem mapFind?_mapDelete_self {V : Type} (l : List (String × V)) (k : String)
    (hnodup : (l.map Prod.fst).Nodup) :
    mapFind? (mapDelete l k) k = none := by
  induction l with
  | nil => simp [mapDelete, mapFind?]
  | cons hd tl ih =>
      obtain ⟨k', v'⟩ := hd
      simp only [List.map_cons, List.nodup_cons] at hnodup
      by_cases h : k' = k
      · subst h
        simp only [mapDelete, if_pos rfl]
        -- the key occurs nowhere in the tail, so the lookup misses
        clear ih
        induction tl with
        | nil => simp [mapFind?]
        | cons hd2 tl2 ih2 =>
            obtain ⟨k2, v2⟩ := hd2
            simp only [List.map_cons, List.mem_cons, List.nodup_cons] at hnodup
            have hk2 : k2 ≠ k' := fun h => hnodup.1 (Or.inl h.symm)
            simp only [mapFind?, if_neg hk2]
            exact ih2 ⟨fun hm => hnodup.1 (Or.inr hm), hnodup.2.2⟩
      · simp only [mapDelete, if_neg h, mapFind?, if_neg h]
        exact ih hnodup.2

/-! ### BinaryJSFetch (`src/src/core/BinaryJSFetch.ts`)

`FetchConfig.retry` — `{ attempts, delay, backoff }`.  The delay/backoff
fields only determine how long the loop sleeps between attempts
(`calculateBackoff`); they never change which attempts are made or what
is returned, so theorems quantify over them freely. -/

structure RetryCfg where
  attempts : Nat
  delay : Nat
  /-- `backoff === "exponential"` (`false` = `"linear"`). -/
  exponentialBackoff : Bool
  deriving Repr, DecidableEq

/-- `FetchConfig.cache` — `{ enabled, ttl? }` (the `strategy` field only
selects a persistence backend and is omitted). -/
structure CacheCfg where
  enabled : Bool
  ttl : Option Nat
  deriving Repr, DecidableEq

/-- The configuration `BinaryJSFetch.fetch` works with after
`{ ...this.defaultConfig, ...config }`.  When the caller is
`BinaryJSApi.request`, the spread always overrides both `cache` and
`retry` because the keys are present (possibly with value `undefined`)
on the passed object; `timeout` stays at its default and is irrelevant
here (a timed-out attempt is just a failed attempt). -/
structure MergedFetchConfig where
  cache : Option CacheCfg
  retry : Option RetryCfg
  deriving Repr, DecidableEq

/-- One entry of `BinaryJSFetch.cache`: `{ data, timestamp }`. -/
structure CacheEntry where
  data : Nat
  timestamp : Nat
  deriving Repr, DecidableEq

/-- The mutable state of the `BinaryJSFetch` singleton: the response
cache and the `pendingRequests` registry.  Promises are identified by a
`Nat` id: two callers holding the same id await the same promise and
therefore receive the result of the same transport invocation. -/
structure FetchState where
  cache : List (String × CacheEntry)
  pending : List (String × Nat)
  deriving Repr, DecidableEq

/-- `mergedConfig.cache?.enabled` under JS truthiness. -/
def cacheEnabled (cfg : MergedFetchConfig) : Bool :=
  match cfg.cache with
  | some c => c.enabled
  | none => false

/-- `mergedConfig.cache.ttl` (read only inside the enabled branch). -/
def cacheTtl (cfg : MergedFetchConfig) : Option Nat :=
  match cfg.cache with
  | some c => c.ttl
  | none => none

/-- `!mergedConfig.cache.ttl || Date.now() - cached.timestamp < ttl`:
an absent ttl — and, by JS falsiness, a ttl of `0` — never expires. -/
def cacheFresh (e : CacheEntry) (ttl : Option Nat) (now : Nat) : Bool :=
  match ttl with
  | none => true
  | some t => t == 0 || decide (now - e.timestamp < t)

/-- `{ data, metadata: { timestamp, cacheHit, retryCount, ... } }` —
the `duration` and `size` metadata fields are derived bookkeeping no
claim mentions and are omitted. -/
structure FetchResponse where
  data : Nat
  timestamp : Nat
  cacheHit : Bool
  retryCount : Nat
  deriving Repr, DecidableEq

/-- The cache short-circuit at the top of `BinaryJSFetch.fetch`: the
response served when a fresh entry exists, `none` otherwise. -/
def cacheServe (cache : List (String × CacheEntry)) (cfg : MergedFetchConfig)
    (key : String) (now : Nat) : Option FetchResponse :=
  if cacheEnabled cfg then
    match mapFind? cache key with
    | some e =>
        if cacheFresh e (cacheTtl cfg) now then
          some ⟨e.data, e.timestamp, true, 0⟩
        else none
    | none => none
  else none

/-- `cacheKey` in `BinaryJSFetch.fetch` is
`` `${url}:${JSON.stringify(options)}` ``; the options object holds the
method and body, so the key is modelled as a deterministic serialization
of `(url, method, body)`.  An absent method or body stringifies the way
`undefined` does. -/
def fetchKey (url : String) (method : Option String) (body : Option Nat) : String :=
  url ++ ":" ++ method.getD "undefined" ++ ":" ++
    (match body with
     | some n => toString n
     | none => "undefined")

/-- What one call of `BinaryJSFetch.fetch` does synchronously, before
any promise resolves (JS runs the body up to the first real suspension
in one go): serve from cache, join the pending promise, or become the
owner and register a new pending promise. -/
inductive FetchSyncOutcome where
  /-- The fresh-cache short-circuit returned a response. -/
  | cacheHitR (r : FetchResponse)
  /-- `pendingRequests.get(cacheKey)` was returned: this caller awaits
  promise `pid` and never starts a transport invocation of its own. -/
  | joinedR (pid : Nat)
  /-- This caller started the single transport invocation behind
  promise `pid` and stored it in `pendingRequests`. -/
  | startedR (pid : Nat)
  deriving Repr, DecidableEq

/-- The synchronous part of `BinaryJSFetch.fetch` (cache check →
pending check → register).  `newPid` is the identity of the promise a
new owner would create.  `executeRequest`'s own synchronous prefix
changes no cache/pending state, so registering after starting it is
order-irrelevant. -/
def fetchSync (st : FetchState) (cfg : MergedFetchConfig) (key : String)
    (now newPid : Nat) : FetchState × FetchSyncOutcome :=
  match cacheServe st.cache cfg key now with
  | some r => (st, .cacheHitR r)
  | none =>
      match mapFind? st.pending key with
      | some pid => (st, .joinedR pid)
      | none => (⟨st.cache, mapSet st.pending key newPid⟩, .startedR newPid)

/-- What runs when the owner's `executeRequest` promise settles.  The
`.then` handler attached in `fetch` caches the response and deletes the
registry entry — but it is a fulfillment handler only: a rejected
promise skips it entirely, leaving both maps untouched. -/
def fetchComplete (st : FetchState) (cfg : MergedFetchConfig) (key : String)
    (result : Except Nat Nat) (now : Nat) : FetchState :=
  match result with
  | .ok v =>
      ⟨(if cacheEnabled cfg then mapSet st.cache key ⟨v, now⟩ else st.cache),
       mapDelete st.pending key⟩
  | .error _ => st

/-- `BinaryJSFetch.clearCache()`: clears the response cache only; the
`pendingRequests` registry is untouched. -/
def clearCache (st : FetchState) : FetchState :=
  ⟨[], st.pending⟩

/-! ### The retry loop `executeRequest`

`transport i` is the outcome of the `i`-th attempt (the `fetch(url,…)`
call with `retryCount = i`); an attempt aborted by the timeout is simply
a failing attempt.  The `while (retryCount <= attempts)` loop is written
structurally over `remaining = attempts + 1 - retryCount`, which the
loop guard keeps positive exactly while it runs. -/

/-- How the `executeRequest` loop ends. -/
inductive ExecOutcome where
  /-- An attempt succeeded; `retryCount` failures preceded it. -/
  | success (v : Nat) (retryCount : Nat)
  /-- `retryCount === config.retry?.attempts` held on a failure: the
  raw underlying error is thrown (`throw error`). -/
  | thrown (e : Nat)
  /-- The loop guard failed and `new Error("Max retries exceeded")` was
  thrown; it wraps nothing.  With a retry config present this line is
  unreachable, because the equality check fires first. -/
  | maxRetriesErr
  deriving Repr, DecidableEq

/-- `config.retry?.attempts || 0`. -/
def attemptsOf : Option RetryCfg → Nat
  | some r => r.attempts
  | none => 0

/-- `retryCount === config.retry?.attempts` — strict equality with
`undefined` is `false` when no retry config is present. -/
def throwNow (retryOpt : Option RetryCfg) (retryCount : Nat) : Bool :=
  match retryOpt with
  | some r => retryCount == r.attempts
  | none => false

/-- `calculateBackoff`: wait before the retry numbered `attempt`
(1-indexed).  Purely a duration; never observed by any other
definition. -/
def calculateBackoff (attempt : Nat) (r : RetryCfg) : Nat :=
  if r.exponentialBackoff then r.delay * 2 ^ (attempt - 1) else r.delay * attempt

/-- The loop body of `executeRequest`, returning the number of transport
attempts made together with the outcome. -/
def execGo (transport : Nat → Except Nat Nat) (retryOpt : Option RetryCfg) :
    Nat → Nat → Nat × ExecOutcome
  | _, 0 => (0, .maxRetriesErr)
  | retryCount, remaining + 1 =>
      match transport retryCount with
      | .ok v => (1, .success v retryCount)
      | .error e =>
          if throwNow retryOpt retryCount then (1, .thrown e)
          else
            let r := execGo transport retryOpt (retryCount + 1) remaining
            (r.1 + 1, r.2)

/-- `executeRequest`: run the loop from `retryCount = 0`. -/
def executeRequest (transport : Nat → Except Nat Nat)
    (retryOpt : Option RetryCfg) : Nat × ExecOutcome :=
  execGo transport retryOpt 0 (attemptsOf retryOpt + 1)

/-- Result of one whole `BinaryJSFetch.fetch` call. -/
inductive FetchRunOutcome where
  | ok (r : FetchResponse)
  | joined (pid : Nat)
  /-- `executeRequest` threw the last raw transport error. -/
  | thrownErr (e : Nat)
  /-- `executeRequest` threw `"Max retries exceeded"`. -/
  | maxRetries
  deriving Repr, DecidableEq

/-- One complete `BinaryJSFetch.fetch` call for a caller that runs to
settlement with no interleaving: the synchronous phase followed, for an
owner, by `executeRequest` and the completion handler.  The third
component counts transport attempts made by this call. -/
def fetchRun (st : FetchState) (cfg : MergedFetchConfig) (url : String)
    (method : Option String) (body : Option Nat) (now : Nat)
    (transport : Nat → Except Nat Nat) (newPid : Nat) :
    FetchState × FetchRunOutcome × Nat :=
  let key := fetchKey url method body
  match fetchSync st cfg key now newPid with
  | (st1, .cacheHitR r) => (st1, .ok r, 0)
  | (st1, .joinedR pid) => (st1, .joined pid, 0)
  | (st1, .startedR _) =>
      match executeRequest transport cfg.retry with
      | (n, .success v retryCount) =>
          (fetchComplete st1 cfg key (.ok v) now, .ok ⟨v, now, false, retryCount⟩, n)
      | (n, .thrown e) =>
          (fetchComplete st1 cfg key (.error e) now, .thrownErr e, n)
      | (n, .maxRetriesErr) =>
          (fetchComplete st1 cfg key (.error 0) now, .maxRetries, n)

/-! ### BinaryJSApi (`src/src/core/BinaryJSApi.ts`) -/

/-- An `ApiEndpoint` record from `ApiServiceConfig.endpoints`.  Header
maps and the empty-bodied interceptor hooks are omitted; the `transform`
and `validation` hooks sit directly on the request path and are kept.
The request validator receives whatever `transform.request` produced,
which may be `undefined`. -/
structure ApiEndpoint where
  path : String
  method : String
  cache : Option CacheCfg
  retry : Option RetryCfg
  requestValidation : Option (Option Nat → Bool)
  responseValidation : Option (Nat → Bool)
  transformRequest : Option (Nat → Nat)
  transformResponse : Option (Nat → Nat)

/-- `{ ...this.config.endpoints[endpoint], ...options }` with the
default empty `options`: spreading `undefined` yields `{}`, so every
field of the merged object is optional. -/
structure MergedEndpoint where
  path : Option String
  method : Option String
  cache : Option CacheCfg
  retry : Option RetryCfg
  requestValidation : Option (Option Nat → Bool)
  responseValidation : Option (Nat → Bool)
  transformRequest : Option (Nat → Nat)
  transformResponse : Option (Nat → Nat)

/-- `ApiServiceConfig` (baseUrl + endpoint table). -/
structure ApiServiceConfig where
  baseUrl : String
  endpoints : List (String × ApiEndpoint)

/-- The spread `{ ...endpoints[endpoint], ...{} }`. -/
def mergeEndpoint : Option ApiEndpoint → MergedEndpoint
  | some e => ⟨some e.path, some e.method, e.cache, e.retry,
      e.requestValidation, e.responseValidation,
      e.transformRequest, e.transformResponse⟩
  | none => ⟨none, none, none, none, none, none, none, none⟩

/-- `if (!endpointConfig) …`: `endpointConfig` is an object literal and
objects are always truthy in JS, so the guard tests this constant. -/
def objTruthy (_ : MergedEndpoint) : Bool := true

/-- `endpointConfig.validation?.request && !validation.request(data)`. -/
def requestValidationFails (v : Option (Option Nat → Bool)) (d : Option Nat) : Bool :=
  match v with
  | some val => !val d
  | none => false

/-- `endpointConfig.validation?.response && !validation.response(data)`. -/
def responseValidationFails (v : Option (Nat → Bool)) (d : Nat) : Bool :=
  match v with
  | some val => !val d
  | none => false

/-- How one `BinaryJSApi.request` call ends. -/
inductive RequestOutcome where
  | ok (r : FetchResponse)
  /-- The inner `fetch` returned the pending promise of another caller;
  this `request` awaits that promise. -/
  | joined (pid : Nat)
  /-- `` throw new Error(`Endpoint ${endpoint} not configured`) `` —
  guarded by the always-false truthiness test above. -/
  | endpointNotConfigured
  /-- `throw new Error("Request validation failed")` (before `fetch`). -/
  | requestValidationFailed
  /-- `throw new Error("Response validation failed")` (after `fetch`
  has already returned — and cached — the response). -/
  | responseValidationFailed
  /-- The inner `fetch` rethrew the last raw transport error. -/
  | fetchFailed (e : Nat)
  /-- The inner `fetch` threw `"Max retries exceeded"`. -/
  | fetchMaxRetries
  deriving Repr, DecidableEq

/-- One `BinaryJSApi.request(endpoint, data)` call run to settlement:
endpoint merge and (dead) configuration guard, request transform and
validation, delegation to `BinaryJSFetch.fetch`, then response
transform and validation.  Returns the fetch state after the call, the
outcome, and the number of transport attempts made.  The per-endpoint
`requestStates` bookkeeping and listener notifications are omitted. -/
def requestRun (svc : ApiServiceConfig) (fetchSt : FetchState)
    (endpoint : String) (body : Option Nat) (now : Nat)
    (transport : Nat → Except Nat Nat) (newPid : Nat) :
    FetchState × RequestOutcome × Nat :=
  let epc := mergeEndpoint (mapFind? svc.endpoints endpoint)
  if objTruthy epc = false then (fetchSt, .endpointNotConfigured, 0)
  else
    let url := svc.baseUrl ++ epc.path.getD "undefined"
    let cfg : MergedFetchConfig := ⟨epc.cache, epc.retry⟩
    let requestData :=
      match epc.transformRequest with
      | some f => body.map f
      | none => body
    if requestValidationFails epc.requestValidation requestData then
      (fetchSt, .requestValidationFailed, 0)
    else
      match fetchRun fetchSt cfg url epc.method requestData now transport newPid with
      | (st1, .ok r, n) =>
          let d := match epc.transformResponse with
                   | some f => f r.data
                   | none => r.data
          if responseValidationFails epc.responseValidation d then
            (st1, .responseValidationFailed, n)
          else
            (st1, .ok { r with data := d }, n)
      | (st1, .joined pid, n) => (st1, .joined pid, n)
      | (st1, .thrownErr e, n) => (st1, .fetchFailed e, n)
      | (st1, .maxRetries, n) => (st1, .fetchMaxRetries, n)

/-! ### BinaryJSApiClient (`src/unnamed/part_007`) -/

/-- `QueryState<T>`: `ApiRequestState` plus staleness bookkeeping.  The
`metadata` object is flattened into `cacheHit`/`retryCount` (its
`duration` field is unused by every claim); `error` stores the outcome
that was thrown. -/
structure QueryState where
  data : Option Nat
  loading : Bool
  error : Option RequestOutcome
  timestamp : Nat
  cacheHit : Bool
  retryCount : Nat
  isStale : Bool
  lastUpdated : Nat
  refetchCount : Nat
  deriving Repr, DecidableEq

/-- The default record `updateQueryState` falls back to when the key is
absent from `queryCache`. -/
def initQueryState (now : Nat) : QueryState :=
  { data := none, loading := false, error := none, timestamp := now,
    cacheHit := false, retryCount := 0, isStale := true,
    lastUpdated := 0, refetchCount := 0 }

/-- `QueryConfig` after `{ ...this.defaultQueryConfig, ...config }`.
`staleTime`, `refetchOnWindowFocus` and `retryOnError` are carried but
never read by `query()` itself. -/
structure QueryConfigMerged where
  enabled : Bool
  staleTime : Nat
  refetchInterval : Nat
  refetchOnWindowFocus : Bool
  retryOnError : Bool
  dedupeTime : Nat
  deriving Repr, DecidableEq

/-- `Partial<QueryConfig>`: every field optional. -/
structure QueryConfigOpt where
  enabled : Option Bool := none
  staleTime : Option Nat := none
  refetchInterval : Option Nat := none
  refetchOnWindowFocus : Option Bool := none
  retryOnError : Option Bool := none
  dedupeTime : Option Nat := none
  deriving Repr, DecidableEq

/-- `{ ...this.defaultQueryConfig, ...config }` with the defaults
`{ enabled: true, staleTime: 5000, refetchInterval: 0,
refetchOnWindowFocus: true, retryOnError: true, dedupeTime: 1000 }`. -/
def mergeQueryConfig (c : QueryConfigOpt) : QueryConfigMerged :=
  { enabled := c.enabled.getD true,
    staleTime := c.staleTime.getD 5000,
    refetchInterval := c.refetchInterval.getD 0,
    refetchOnWindowFocus := c.refetchOnWindowFocus.getD true,
    retryOnError := c.retryOnError.getD true,
    dedupeTime := c.dedupeTime.getD 1000 }

/-- `MutationConfig`; absent boolean fields read as `false` under JS
truthiness, an absent `invalidateQueries` as `[]`.  `retryOnError` is
declared but never read by `mutate`. -/
structure MutationConfig where
  optimisticUpdate : Bool := false
  rollbackOnError : Bool := false
  invalidateQueries : List String := []

/-- The `BinaryJSApiClient` state: its `queryCache` map. -/
structure ClientState where
  queryCache : List (String × QueryState)
  deriving Repr, DecidableEq

/-- `` `${endpoint}:${JSON.stringify(data)}` ``. -/
def queryKey (endpoint : String) (body : Option Nat) : String :=
  endpoint ++ ":" ++
    (match body with
     | some n => toString n
     | none => "undefined")

/-- How a `BinaryJSApiClient.query` call ends.  Which constructor is
produced records which branch of the source returned. -/
inductive QueryOutcome where
  /-- `!mergedConfig.enabled`: the current state (possibly `undefined`)
  is returned untouched. -/
  | disabled (s : Option QueryState)
  /-- The dedupe short-circuit returned the stored state as is. -/
  | dedupe (s : QueryState)
  /-- The awaited request succeeded; the freshly stored state is
  returned (`this.queryCache.get(queryKey)`). -/
  | success (s : QueryState)
  /-- The awaited request threw; the error is recorded and rethrown. -/
  | failure (e : RequestOutcome)
  deriving Repr, DecidableEq

/-- One `BinaryJSApiClient.query(endpoint, data, config)` call run to
settlement with no interleaving: dedupe check, `loading` transition,
`await this.api.request(...)`, and the success/error write-back.
Returns the client state, the fetch state, the outcome, and the number
of transport attempts made.  The `refetchInterval` `setTimeout` (which
would mark the entry stale later) is a future event outside this
call. -/
def queryRun (cst : ClientState) (fetchSt : FetchState)
    (svc : ApiServiceConfig) (endpoint : String) (body : Option Nat)
    (cfgp : QueryConfigOpt) (now : Nat)
    (transport : Nat → Except Nat Nat) (newPid : Nat) :
    ClientState × FetchState × QueryOutcome × Nat :=
  let qk := queryKey endpoint body
  let cfg := mergeQueryConfig cfgp
  let currentState := mapFind? cst.queryCache qk
  if cfg.enabled = false then (cst, fetchSt, .disabled currentState, 0)
  else
    let dedupeHit : Option QueryState :=
      match currentState with
      | some s =>
          if s.isStale = false ∧ cfg.dedupeTime ≠ 0 ∧
              now - s.lastUpdated < cfg.dedupeTime
          then some s else none
      | none => none
    match dedupeHit with
    | some s => (cst, fetchSt, .dedupe s, 0)
    | none =>
        let base := currentState.getD (initQueryState now)
        let qc1 := mapSet cst.queryCache qk { base with loading := true }
        match requestRun svc fetchSt endpoint body now transport newPid with
        | (f1, .ok r, n) =>
            let base2 := (mapFind? qc1 qk).getD (initQueryState now)
            let newS : QueryState :=
              { base2 with
                data := some r.data, loading := false, error := none,
                isStale := false, lastUpdated := now,
                refetchCount := (match currentState with
                                 | some s => s.refetchCount
                                 | none => 0) + 1,
                cacheHit := r.cacheHit, retryCount := r.retryCount }
            (⟨mapSet qc1 qk newS⟩, f1, .success newS, n)
        | (f1, err, n) =>
            let base2 := (mapFind? qc1 qk).getD (initQueryState now)
            let newS : QueryState :=
              { base2 with loading := false, error := some err, isStale := true }
            (⟨mapSet qc1 qk newS⟩, f1, .failure err, n)

/-- The `forEach` loops that mark every cached key starting with one of
the given strings as stale (used by `mutate`'s optimistic update, its
success-path re-invalidation, and its `rollbackOnError` branch).
`Map.set` on a visited key replaces the value in place, so the net
effect of the loop is this pointwise map. -/
def markStalePrefixes (qc : List (String × QueryState)) (ps : List String) :
    List (String × QueryState) :=
  qc.map (fun e =>
    (e.1, if ps.any (fun p => jsStartsWith e.1 p) then { e.2 with isStale := true }
          else e.2))

/-- `BinaryJSApiClient.invalidateQuery(endpoint)`: mark (never delete)
every entry whose key starts with the argument. -/
def invalidateQuery (cst : ClientState) (endpoint : String) : ClientState :=
  ⟨cst.queryCache.map (fun e =>
    (e.1, if jsStartsWith e.1 endpoint then { e.2 with isStale := true } else e.2))⟩

/-- `BinaryJSApiClient.clearQueryCache()`. -/
def clearQueryCache (_ : ClientState) : ClientState := ⟨[]⟩

/-- Everything `mutate` does before its first `await`: when
`config.optimisticUpdate` is truthy, mark all matching keys stale.
This is, by the definition of `mutateRun` below, exactly the client
state in force when the mutation's transport call is issued. -/
def mutatePreTransport (cst : ClientState) (cfg : MutationConfig) : ClientState :=
  if cfg.optimisticUpdate then ⟨markStalePrefixes cst.queryCache cfg.invalidateQueries⟩
  else cst

/-- How a `BinaryJSApiClient.mutate` call ends. -/
inductive MutateOutcome where
  | ok (data : Nat)
  | err (e : RequestOutcome)
  deriving Repr, DecidableEq

/-- The rest of `mutate` after the optimistic phase:
`await this.api.request(...)`, then the success-path re-invalidation or
the `rollbackOnError` re-marking. -/
def mutateTransportPhase (cst1 : ClientState) (fetchSt : FetchState)
    (svc : ApiServiceConfig) (endpoint : String) (body : Option Nat)
    (cfg : MutationConfig) (now : Nat)
    (transport : Nat → Except Nat Nat) (newPid : Nat) :
    ClientState × FetchState × MutateOutcome × Nat :=
  match requestRun svc fetchSt endpoint body now transport newPid with
  | (f1, .ok r, n) =>
      (⟨markStalePrefixes cst1.queryCache cfg.invalidateQueries⟩, f1, .ok r.data, n)
  | (f1, e, n) =>
      ((if cfg.rollbackOnError then
          ⟨markStalePrefixes cst1.queryCache cfg.invalidateQueries⟩
        else cst1), f1, .err e, n)

/-- One `BinaryJSApiClient.mutate(endpoint, data, config)` call run to
settlement: the optimistic marking strictly precedes the transport
phase by construction.  Mutations never touch `queryCache` data entries
and never pass a cache-disabling option to the request layer. -/
def mutateRun (cst : ClientState) (fetchSt : FetchState)
    (svc : ApiServiceConfig) (endpoint : String) (body : Option Nat)
    (cfg : MutationConfig) (now : Nat)
    (transport : Nat → Except Nat Nat) (newPid : Nat) :
    ClientState × FetchState × MutateOutcome × Nat :=
  mutateTransportPhase (mutatePreTransport cst cfg) fetchSt svc endpoint body
    cfg now transport newPid

/-- `n` concurrent `BinaryJSFetch.fetch` calls for the same key, all
issued before any of them resolves: the JS event loop runs each call's
synchronous prologue to completion in issue order, so the burst is the
sequential composition of `n` `fetchSync` steps (with distinct fresh
promise ids `pid, pid+1, …`). -/
def fetchSyncBurst (st : FetchState) (cfg : MergedFetchConfig) (key : String)
    (now : Nat) : Nat → Nat → FetchState × List FetchSyncOutcome
  | _, 0 => (st, [])
  | pid, n + 1 =>
      let r1 := fetchSync st cfg key now pid
      let rs := fetchSyncBurst r1.1 cfg key now (pid + 1) n
      (rs.1, r1.2 :: rs.2)

/-! ### Shared lemmas -/

/-- Lookup through a conditional pointwise map (the shape of
`invalidateQuery` and `markStalePrefixes`): the entry survives under
the same key, transformed exactly when its key satisfies the test. -/
theorem mapFind?_map_cond {V : Type} (l : List (String × V)) (pred : String → Bool)
    (f : V → V) (k : String) :
    mapFind? (l.map (fun e => (e.1, if pred e.1 then f e.2 else e.2))) k =
      (mapFind? l k).map (fun v => if pred k then f v else v) := by
  induction l with
  | nil => simp [mapFind?]
  | cons hd tl ih =>
      obtain ⟨k', v'⟩ := hd
      by_cases hk : k' = k
      · subst hk; simp [mapFind?]
      · simp [mapFind?, hk, ih]

/-- One failing, non-final iteration of the `executeRequest` loop adds
one transport call and continues with `retryCount + 1`. -/
theorem execGo_error_step (tr : Nat → Except Nat Nat) (r : RetryCfg)
    (rc rem e : Nat) (htr : tr rc = .error e) (hne : rc ≠ r.attempts) :
    execGo tr (some r) rc (rem + 1) =
      ((execGo tr (some r) (rc + 1) rem).1 + 1,
       (execGo tr (some r) (rc + 1) rem).2) := by
  simp [execGo, htr, throwNow, hne]

/-- An always-failing transport drives the `executeRequest` loop from
`retryCount = rc` through `retryCount = attempts`: one attempt per
iteration, ending in the raw throw of the final error. -/
theorem execGo_allFail (err : Nat → Nat) (r : RetryCfg) :
    ∀ k rc, rc + k = r.attempts →
      execGo (fun i => Except.error (err i)) (some r) rc (k + 1) =
        (k + 1, .thrown (err r.attempts)) := by
  intro k
  induction k with
  | zero =>
      intro rc h
      simp only [Nat.add_zero] at h
      subst h
      simp [execGo, throwNow]
  | succ k ih =>
      intro rc h
      have hne : rc ≠ r.attempts := by omega
      have hrec := ih (rc + 1) (by omega)
      rw [execGo_error_step (fun i => Except.error (err i)) r rc (k + 1)
        (err rc) rfl hne, hrec]

/-- A burst of `fetchSync` calls against a state whose pending registry
already holds the key, with no fresh cache entry: every call joins the
registered promise and the state never changes. -/
theorem fetchSyncBurst_joins (st : FetchState) (cfg : MergedFetchConfig)
    (key : String) (now pid : Nat)
    (hcache : cacheServe st.cache cfg key now = none)
    (hpend : mapFind? st.pending key = some pid) :
    ∀ m pid', fetchSyncBurst st cfg key now pid' m =
      (st, List.replicate m (.joinedR pid)) := by
  intro m
  induction m with
  | zero => intro pid'; simp [fetchSyncBurst]
  | succ m ih =>
      intro pid'
      have h1 : fetchSync st cfg key now pid' = (st, .joinedR pid) := by
        simp [fetchSync, hcache, hpend]
      simp [fetchSyncBurst, h1, ih, List.replicate_succ]

/-! ### Claim C1 -/

/-- Claim C1, counterexample.  The claim states that when every attempt
fails under `attempts = 3`, the error surfaced to the caller is a
`MaxRetriesExceeded` error wrapping the last transport failure.  In the
source, the failure branch at `retryCount === attempts` throws the raw
underlying error; the `new Error("Max retries exceeded")` after the
loop (the only MaxRetriesExceeded-shaped error in the code, and it
wraps nothing) is unreachable whenever a retry config is present.
Concretely, a transport always failing with error `7` under
`attempts = 3` makes 4 calls and surfaces the raw error `7`, not the
max-retries error. -/
theorem c1_counterexample :
    executeRequest (fun _ => Except.error 7) (some ⟨3, 1000, true⟩) =
      (4, .thrown 7) ∧
    (executeRequest (fun _ => Except.error 7) (some ⟨3, 1000, true⟩)).2 ≠
      ExecOutcome.maxRetriesErr := by
  constructor
  · rfl
  · decide

/-- Claim C1, amended: for every request whose transport fails on every
attempt under a retry configuration with `attempts = N`, exactly `N + 1`
transport calls are made (one initial try plus `N` retries), and the
error surfaced to the caller is the last underlying transport failure
itself, thrown raw — not a `MaxRetriesExceeded` wrapper. -/
theorem c1_retry_exhaustion (err : Nat → Nat) (r : RetryCfg) :
    executeRequest (fun i => Except.error (err i)) (some r) =
      (r.attempts + 1, .thrown (err r.attempts)) := by
  have h := execGo_allFail err r r.attempts 0 (by omega)
  simpa [executeRequest, attemptsOf] using h

/-! ### Claim C2 -/

/-- Claim C2: if `n + 1` concurrent `fetch` calls for an identical key
are issued before any of them resolves — with no fresh cache entry and
no pending promise for the key beforehand — then exactly one transport
invocation is started (by the first caller) and every other caller
joins that caller's registered promise `pid`, so all receive the result
of that single invocation. -/
theorem c2_dedupe_single_invocation (st : FetchState) (cfg : MergedFetchConfig)
    (key : String) (now pid m : Nat)
    (hcache : cacheServe st.cache cfg key now = none)
    (hpend : mapFind? st.pending key = none) :
    (fetchSyncBurst st cfg key now pid (m + 1)).2 =
      .startedR pid :: List.replicate m (.joinedR pid) := by
  have h1 : fetchSync st cfg key now pid =
      (⟨st.cache, mapSet st.pending key pid⟩, .startedR pid) := by
    simp [fetchSync, hcache, hpend]
  have hrest := fetchSyncBurst_joins ⟨st.cache, mapSet st.pending key pid⟩ cfg key
    now pid (by simpa using hcache) (by simp [mapFind?_mapSet_self]) m (pid + 1)
  simp [fetchSyncBurst, h1, hrest]

/-- Claim C2, witness: three concurrent calls from the empty state make
one transport invocation and two joins. -/
theorem c2_witness :
    cacheServe (⟨[], []⟩ : FetchState).cache ⟨some ⟨true, some 5000⟩, none⟩ "users/1:GET:undefined" 0 = none ∧
    mapFind? (⟨[], []⟩ : FetchState).pending "users/1:GET:undefined" = none ∧
    (fetchSyncBurst ⟨[], []⟩ ⟨some ⟨true, some 5000⟩, none⟩ "users/1:GET:undefined" 0 11 3).2 =
      .startedR 11 :: List.replicate 2 (.joinedR 11) :=
  ⟨rfl, rfl,
    c2_dedupe_single_invocation ⟨[], []⟩ ⟨some ⟨true, some 5000⟩, none⟩
      "users/1:GET:undefined" 0 11 2 rfl rfl⟩

/-! ### Claim C3 -/

/-- Claim C3, counterexample.  The claim states that a transport
completion for a key that was invalidated (here: `clearCache()`) while
the call was outstanding is discarded.  The source has no generation
counter: the `.then` handler caches its result unconditionally.
Concretely, start a fetch for `"users/1:GET:undefined"` at time 0,
clear the cache, then let the call complete with data `42` at time 9:
the cleared cache ends up holding the stale completion (the claim would
require the lookup to be `none`). -/
theorem c3_counterexample :
    mapFind?
      (fetchComplete
        (clearCache (fetchSync ⟨[], []⟩ ⟨some ⟨true, some 5000⟩, some ⟨3, 1000, true⟩⟩
          "users/1:GET:undefined" 0 0).1)
        ⟨some ⟨true, some 5000⟩, some ⟨3, 1000, true⟩⟩
        "users/1:GET:undefined" (.ok 42) 9).cache
      "users/1:GET:undefined" = some ⟨42, 9⟩ := by
  decide

/-- Claim C3, amended: a completion is never discarded — whenever the
cache is enabled, the completion handler overwrites the cache entry for
its key with its own result, whatever happened to the cache (clear,
invalidation, a fresher write) while the call was outstanding; the last
completion to arrive wins. -/
theorem c3_completion_overwrites (st : FetchState) (cfg : MergedFetchConfig)
    (key : String) (v now : Nat) (henabled : cacheEnabled cfg = true) :
    mapFind? (fetchComplete st cfg key (.ok v) now).cache key = some ⟨v, now⟩ := by
  simp [fetchComplete, henabled, mapFind?_mapSet_self]

/-- Claim C3, amended, witness: the overwrite at a concrete cleared
state. -/
theorem c3_witness :
    cacheEnabled ⟨some ⟨true, some 5000⟩, none⟩ = true ∧
    mapFind? (fetchComplete ⟨[], [("k", 4)]⟩ ⟨some ⟨true, some 5000⟩, none⟩
      "k" (.ok 7) 3).cache "k" = some ⟨7, 3⟩ :=
  ⟨rfl, c3_completion_overwrites ⟨[], [("k", 4)]⟩ ⟨some ⟨true, some 5000⟩, none⟩
    "k" 7 3 rfl⟩

/-! ### Claim C5 -/

/-- Claim C5, counterexample.  The claim states the pending-request
registry entry is removed on completion whether the request succeeded
or failed.  The deletion lives in a fulfillment-only `.then` handler,
so a rejected request leaves its entry behind: after a failed request
for `"k"` (promise 7), the registry still holds promise 7, and a new
request for the same key joins that settled rejected promise instead of
starting a fresh transport call. -/
theorem c5_counterexample :
    mapFind?
      (fetchComplete (fetchSync ⟨[], []⟩ ⟨some ⟨true, some 5000⟩, some ⟨3, 1000, true⟩⟩ "k" 0 7).1
        ⟨some ⟨true, some 5000⟩, some ⟨3, 1000, true⟩⟩ "k" (.error 3) 5).pending "k" = some 7 ∧
    (fetchSync
      (fetchComplete (fetchSync ⟨[], []⟩ ⟨some ⟨true, some 5000⟩, some ⟨3, 1000, true⟩⟩ "k" 0 7).1
        ⟨some ⟨true, some 5000⟩, some ⟨3, 1000, true⟩⟩ "k" (.error 3) 5)
      ⟨some ⟨true, some 5000⟩, some ⟨3, 1000, true⟩⟩ "k" 6 8).2 = .joinedR 7 := by
  constructor
  · decide
  · decide

/-- Claim C5, amended: on successful completion the registry entry for
the key is removed (assuming the JS-`Map` invariant of distinct keys),
so an immediate new request starts fresh; on failed completion the
rejection skips the fulfillment handler, the state is unchanged, and —
when the cache does not serve the key — a new request for the same key
joins the stored (already rejected) promise instead of starting a fresh
transport call. -/
theorem c5_registry_removal (st : FetchState) (cfg : MergedFetchConfig)
    (key : String) (v e now pid newPid : Nat)
    (hnodup : (st.pending.map Prod.fst).Nodup) :
    mapFind? (fetchComplete st cfg key (.ok v) now).pending key = none ∧
    fetchComplete st cfg key (.error e) now = st ∧
    (cacheServe st.cache cfg key now = none →
      mapFind? st.pending key = some pid →
      fetchSync st cfg key now newPid = (st, .joinedR pid)) := by
  refine ⟨?_, rfl, ?_⟩
  · simp [fetchComplete, mapFind?_mapDelete_self st.pending key hnodup]
  · intro hcache hpend
    simp [fetchSync, hcache, hpend]

/-- Claim C5, amended, witness at a concrete one-entry registry. -/
theorem c5_witness :
    ((⟨[], [("k", 7)]⟩ : FetchState).pending.map Prod.fst).Nodup ∧
    mapFind? (fetchComplete ⟨[], [("k", 7)]⟩ ⟨none, none⟩ "k" (.ok 1) 2).pending "k" = none ∧
    fetchComplete ⟨[], [("k", 7)]⟩ ⟨none, none⟩ "k" (.error 3) 2 = ⟨[], [("k", 7)]⟩ ∧
    fetchSync ⟨[], [("k", 7)]⟩ ⟨none, none⟩ "k" 2 9 = (⟨[], [("k", 7)]⟩, .joinedR 7) := by
  have h := c5_registry_removal ⟨[], [("k", 7)]⟩ ⟨none, none⟩ "k" 1 3 2 7 9 (by simp)
  exact ⟨by simp, h.1, h.2.1, h.2.2 rfl rfl⟩

/-! ### Claim C6 -/

/-- Claim C6: when `mutate()` runs with a truthy `optimisticUpdate` and
a list of invalidation key strings, every cached query entry whose key
starts with one of them is stale in the client state produced by the
synchronous pre-`await` phase — and `mutateRun` is, definitionally,
that phase followed by the transport phase, so the marking is in force
strictly before the mutation's transport call is even issued, let alone
resolved. -/
theorem c6_optimistic_before_transport (cst : ClientState) (fetchSt : FetchState)
    (svc : ApiServiceConfig) (endpoint : String) (body : Option Nat)
    (cfg : MutationConfig) (now : Nat) (transport : Nat → Except Nat Nat)
    (newPid : Nat) (hopt : cfg.optimisticUpdate = true) :
    (∀ k s, mapFind? (mutatePreTransport cst cfg).queryCache k = some s →
        cfg.invalidateQueries.any (fun p => jsStartsWith k p) = true →
        s.isStale = true) ∧
    mutateRun cst fetchSt svc endpoint body cfg now transport newPid =
      mutateTransportPhase (mutatePreTransport cst cfg) fetchSt svc endpoint
        body cfg now transport newPid := by
  refine ⟨?_, rfl⟩
  intro k s hfind hmatch
  simp only [mutatePreTransport, hopt, if_true] at hfind
  simp only [markStalePrefixes] at hfind
  rw [mapFind?_map_cond cst.queryCache
    (fun x => cfg.invalidateQueries.any fun p => jsStartsWith x p)
    (fun q => { q with isStale := true }) k] at hfind
  cases hq : mapFind? cst.queryCache k with
  | none => rw [hq] at hfind; simp at hfind
  | some q =>
      rw [hq] at hfind
      simp only [Option.map_some', Option.some.injEq, hmatch, if_true] at hfind
      rw [← hfind]

/-- Claim C6, witness: a cached `users/1` entry with `isStale = false`
is stale in the pre-transport state of a mutation invalidating
`"users"`. -/
theorem c6_witness :
    (⟨true, false, ["users"]⟩ : MutationConfig).optimisticUpdate = true ∧
    (∀ k s, mapFind? (mutatePreTransport
        ⟨[("users/1:undefined", ⟨some 5, false, none, 0, false, 0, false, 100, 1⟩)]⟩
        ⟨true, false, ["users"]⟩).queryCache k = some s →
      (["users"] : List String).any (fun p => jsStartsWith k p) = true →
      s.isStale = true) ∧
    mutateRun ⟨[("users/1:undefined", ⟨some 5, false, none, 0, false, 0, false, 100, 1⟩)]⟩
        ⟨[], []⟩ ⟨"", [("users/1", ⟨"users/1", "PUT", none, none, none, none, none, none⟩)]⟩
        "users/1" (some 2) ⟨true, false, ["users"]⟩ 0 (fun _ => Except.ok 1) 0 =
      mutateTransportPhase (mutatePreTransport
          ⟨[("users/1:undefined", ⟨some 5, false, none, 0, false, 0, false, 100, 1⟩)]⟩
          ⟨true, false, ["users"]⟩)
        ⟨[], []⟩ ⟨"", [("users/1", ⟨"users/1", "PUT", none, none, none, none, none, none⟩)]⟩
        "users/1" (some 2) ⟨true, false, ["users"]⟩ 0 (fun _ => Except.ok 1) 0 := by
  have h := c6_optimistic_before_transport
    ⟨[("users/1:undefined", ⟨some 5, false, none, 0, false, 0, false, 100, 1⟩)]⟩
    ⟨[], []⟩ ⟨"", [("users/1", ⟨"users/1", "PUT", none, none, none, none, none, none⟩)]⟩
    "users/1" (some 2) ⟨true, false, ["users"]⟩ 0 (fun _ => Except.ok 1) 0 rfl
  exact ⟨rfl, h.1, h.2⟩

/-! ### Claim C7 -/

/-- Claim C7, counterexample.  The claim states the dedupe-window
short-circuit returns the stored state with `metadata.cacheHit = true`.
The source returns `currentState` exactly as stored, never setting
`cacheHit`: a non-stale entry stored from a real network response
(`cacheHit = false`, `lastUpdated = 1000`) queried again at `now = 1500`
(inside the default 1000 ms window) comes back with
`cacheHit = false`. -/
theorem c7_counterexample :
    (queryRun ⟨[("users/1:undefined", ⟨some 5, false, none, 0, false, 0, false, 1000, 1⟩)]⟩
        ⟨[], []⟩ ⟨"", []⟩ "users/1" none {} 1500 (fun _ => Except.ok 0) 0).2.2.1 =
      .dedupe ⟨some 5, false, none, 0, false, 0, false, 1000, 1⟩ ∧
    (⟨some 5, false, none, 0, false, 0, false, 1000, 1⟩ : QueryState).cacheHit = false := by
  constructor
  · decide
  · decide

/-- Claim C7, amended: when a query state exists for the key, is not
stale, and `now` is within the dedupe window of its `lastUpdated`, the
call returns that stored state exactly as it is — no transport call, no
state transition — but its `metadata.cacheHit` keeps whatever value was
stored, it is not forced to `true`. -/
theorem c7_dedupe_returns_stored (cst : ClientState) (fetchSt : FetchState)
    (svc : ApiServiceConfig) (endpoint : String) (body : Option Nat)
    (cfgp : QueryConfigOpt) (now : Nat) (transport : Nat → Except Nat Nat)
    (newPid : Nat) (s : QueryState)
    (henabled : (mergeQueryConfig cfgp).enabled = true)
    (hfind : mapFind? cst.queryCache (queryKey endpoint body) = some s)
    (hstale : s.isStale = false)
    (hdedupe : (mergeQueryConfig cfgp).dedupeTime ≠ 0)
    (hwin : now - s.lastUpdated < (mergeQueryConfig cfgp).dedupeTime) :
    queryRun cst fetchSt svc endpoint body cfgp now transport newPid =
      (cst, fetchSt, .dedupe s, 0) := by
  simp [queryRun, hfind, henabled, hstale, hdedupe, hwin]

/-- Claim C7, amended, witness: a stored state with `cacheHit = true`
is returned untouched from inside the window. -/
theorem c7_witness :
    (mergeQueryConfig {}).enabled = true ∧
    mapFind? (⟨[("users/2:undefined", ⟨some 8, false, none, 0, true, 0, false, 200, 2⟩)]⟩ :
        ClientState).queryCache (queryKey "users/2" none) =
      some ⟨some 8, false, none, 0, true, 0, false, 200, 2⟩ ∧
    queryRun ⟨[("users/2:undefined", ⟨some 8, false, none, 0, true, 0, false, 200, 2⟩)]⟩
        ⟨[], []⟩ ⟨"", []⟩ "users/2" none {} 700 (fun _ => Except.ok 0) 0 =
      (⟨[("users/2:undefined", ⟨some 8, false, none, 0, true, 0, false, 200, 2⟩)]⟩,
       ⟨[], []⟩, .dedupe ⟨some 8, false, none, 0, true, 0, false, 200, 2⟩, 0) := by
  refine ⟨rfl, by decide, ?_⟩
  exact c7_dedupe_returns_stored
    ⟨[("users/2:undefined", ⟨some 8, false, none, 0, true, 0, false, 200, 2⟩)]⟩
    ⟨[], []⟩ ⟨"", []⟩ "users/2" none {} 700 (fun _ => Except.ok 0) 0
    ⟨some 8, false, none, 0, true, 0, false, 200, 2⟩
    rfl (by decide) rfl (by decide) (by decide)

/-! ### Claim C4 -/

/-- Claim C4, counterexample.  The claim states that after
`invalidateQuery(prefix)` the next `query()` for a marked key performs
a fresh transport call even when the TTL has not expired.  The marking
only touches the client-level `queryCache`; the fetch-level response
cache in `BinaryJSFetch` is untouched, and `query()` funnels through
it.  Concretely: a `users/1` entry is invalidated via prefix `"users"`,
but the fetch cache still holds `data = 99` stored at time 0 with
`ttl = 10000`; the next `query()` at `now = 1000` makes 0 transport
calls and returns the fetch-cached 99. -/
theorem c4_counterexample :
    (queryRun
        (invalidateQuery ⟨[("users/1:undefined", ⟨some 99, false, none, 0, false, 0, false, 0, 1⟩)]⟩ "users")
        ⟨[("users/1:GET:undefined", ⟨99, 0⟩)], []⟩
        ⟨"", [("users/1", ⟨"users/1", "GET", some ⟨true, some 10000⟩, none, none, none, none, none⟩)]⟩
        "users/1" none {} 1000 (fun _ => Except.ok 50) 0).2.2.2 = 0 ∧
    (queryRun
        (invalidateQuery ⟨[("users/1:undefined", ⟨some 99, false, none, 0, false, 0, false, 0, 1⟩)]⟩ "users")
        ⟨[("users/1:GET:undefined", ⟨99, 0⟩)], []⟩
        ⟨"", [("users/1", ⟨"users/1", "GET", some ⟨true, some 10000⟩, none, none, none, none, none⟩)]⟩
        "users/1" none {} 1000 (fun _ => Except.ok 50) 0).2.2.1 =
      .success ⟨some 99, false, none, 0, true, 0, false, 1000, 2⟩ := by
  constructor
  · decide
  · decide

/-- Claim C4, amended: after `invalidateQuery(prefix)` every cached
query entry whose key starts with the prefix has `isStale = true` and
no entry is deleted (non-matching entries are unchanged); the next
`query()` for such a key does skip the dedupe short-circuit, but it
performs a fresh transport call only when the fetch-layer response
cache also misses or is expired — with an unexpired fetch-layer entry
the query is answered from that cache with zero transport calls, as the
third conjunct exhibits on the counterexample's configuration. -/
theorem c4_invalidate_marks_stale (cst : ClientState) (p : String)
    (svc : ApiServiceConfig) (fetchSt : FetchState) (endpoint : String)
    (body : Option Nat) (cfgp : QueryConfigOpt) (now : Nat)
    (transport : Nat → Except Nat Nat) (newPid : Nat) (s : QueryState)
    (henabled : (mergeQueryConfig cfgp).enabled = true)
    (hfind : mapFind? cst.queryCache (queryKey endpoint body) = some s)
    (hstale : s.isStale = true) :
    (∀ k, mapFind? (invalidateQuery cst p).queryCache k =
        (mapFind? cst.queryCache k).map
          (fun q => if jsStartsWith k p then { q with isStale := true } else q)) ∧
    (∀ s', (queryRun cst fetchSt svc endpoint body cfgp now transport newPid).2.2.1 ≠
        QueryOutcome.dedupe s') ∧
    (queryRun
        (invalidateQuery ⟨[("users/9:undefined", ⟨some 99, false, none, 0, false, 0, false, 0, 1⟩)]⟩ "users")
        ⟨[("users/9:GET:undefined", ⟨99, 0⟩)], []⟩
        ⟨"", [("users/9", ⟨"users/9", "GET", some ⟨true, some 10000⟩, none, none, none, none, none⟩)]⟩
        "users/9" none {} 1000 (fun _ => Except.ok 50) 0).2.2.2 = 0 := by
  refine ⟨?_, ?_, by decide⟩
  · intro k
    show mapFind? (cst.queryCache.map _) k = _
    exact mapFind?_map_cond cst.queryCache (fun x => jsStartsWith x p)
      (fun q => { q with isStale := true }) k
  · intro s'
    simp only [queryRun, hfind, henabled, hstale]
    rcases h : requestRun svc fetchSt endpoint body now transport newPid with ⟨f1, out, n⟩
    cases out <;> simp [h]

/-- Claim C4, amended, witness: a stale `users/3` entry with an enabled
default config satisfies the hypotheses. -/
theorem c4_witness :
    (mergeQueryConfig {}).enabled = true ∧
    mapFind? (⟨[("users/3:undefined", ⟨some 1, false, none, 0, false, 0, true, 0, 1⟩)]⟩ :
        ClientState).queryCache (queryKey "users/3" none) =
      some ⟨some 1, false, none, 0, false, 0, true, 0, 1⟩ ∧
    (∀ k, mapFind? (invalidateQuery
        ⟨[("users/3:undefined", ⟨some 1, false, none, 0, false, 0, true, 0, 1⟩)]⟩ "users").queryCache k =
      (mapFind? (⟨[("users/3:undefined", ⟨some 1, false, none, 0, false, 0, true, 0, 1⟩)]⟩ :
          ClientState).queryCache k).map
        (fun q => if jsStartsWith k "users" then { q with isStale := true } else q)) := by
  have h := c4_invalidate_marks_stale
    ⟨[("users/3:undefined", ⟨some 1, false, none, 0, false, 0, true, 0, 1⟩)]⟩ "users"
    ⟨"", []⟩ ⟨[], []⟩ "users/3" none {} 0 (fun _ => Except.ok 0) 0
    ⟨some 1, false, none, 0, false, 0, true, 0, 1⟩ rfl (by decide) rfl
  exact ⟨rfl, by decide, h.1⟩

/-! ### Claim C8 -/

/-- Claim C8.  The claim — matching both the spec and the error message
in the source — is that `request()` for an endpoint absent from the
service configuration throws an endpoint-not-configured error
synchronously, before any transport call.  The source computes
`endpointConfig` by spreading the (undefined) table entry into an
object literal *before* the `if (!endpointConfig) throw` guard; an
object is always truthy, so the guard is dead and the request proceeds
to a transport call against `baseUrl + undefined`.  Concretely, with an
empty endpoint table, `request("missing")` makes one transport call and
succeeds, and its outcome is not the endpoint-not-configured error the
code's own dead `throw` was meant to raise. -/
theorem c8_unknown_endpoint_calls_transport :
    requestRun ⟨"https://api.example.com", []⟩ ⟨[], []⟩ "missing" none 0
      (fun _ => Except.ok 7) 0 = (⟨[], []⟩, .ok ⟨7, 0, false, 0⟩, 1) ∧
    (requestRun ⟨"https://api.example.com", []⟩ ⟨[], []⟩ "missing" none 0
      (fun _ => Except.ok 7) 0).2.1 ≠ RequestOutcome.endpointNotConfigured := by
  constructor
  · decide
  · decide

/-! ### Claim C9 -/

/-- When the merged cache configuration is disabled or absent, no path
through `BinaryJSFetch.fetch` writes the response cache. -/
theorem fetchRun_cache_not_enabled (st : FetchState) (cfg : MergedFetchConfig)
    (url : String) (method : Option String) (body : Option Nat) (now : Nat)
    (transport : Nat → Except Nat Nat) (newPid : Nat)
    (h : cacheEnabled cfg = false) :
    ((fetchRun st cfg url method body now transport newPid).1).cache = st.cache := by
  have hcs : cacheServe st.cache cfg (fetchKey url method body) now = none := by
    simp [cacheServe, h]
  simp only [fetchRun, fetchSync, hcs]
  cases hp : mapFind? st.pending (fetchKey url method body) with
  | some pid => simp
  | none =>
      rcases hex : executeRequest transport cfg.retry with ⟨n, out⟩
      cases out <;> simp [fetchComplete, h]

/-- When the endpoint's merged cache configuration is disabled or
absent, no path through `BinaryJSApi.request` writes the response
cache. -/
theorem requestRun_cache_not_enabled (svc : ApiServiceConfig)
    (fetchSt : FetchState) (endpoint : String) (body : Option Nat) (now : Nat)
    (transport : Nat → Except Nat Nat) (newPid : Nat)
    (h : cacheEnabled ⟨(mergeEndpoint (mapFind? svc.endpoints endpoint)).cache,
        (mergeEndpoint (mapFind? svc.endpoints endpoint)).retry⟩ = false) :
    ((requestRun svc fetchSt endpoint body now transport newPid).1).cache =
      fetchSt.cache := by
  have hfc := fetchRun_cache_not_enabled fetchSt
    ⟨(mergeEndpoint (mapFind? svc.endpoints endpoint)).cache,
     (mergeEndpoint (mapFind? svc.endpoints endpoint)).retry⟩
    (svc.baseUrl ++ (mergeEndpoint (mapFind? svc.endpoints endpoint)).path.getD "undefined")
    (mergeEndpoint (mapFind? svc.endpoints endpoint)).method
    (match (mergeEndpoint (mapFind? svc.endpoints endpoint)).transformRequest with
     | some f => body.map f
     | none => body) now transport newPid h
  simp only [requestRun, objTruthy]
  split
  · rfl
  · split
    · rfl
    · rcases hf : fetchRun fetchSt
          ⟨(mergeEndpoint (mapFind? svc.endpoints endpoint)).cache,
           (mergeEndpoint (mapFind? svc.endpoints endpoint)).retry⟩
          (svc.baseUrl ++ (mergeEndpoint (mapFind? svc.endpoints endpoint)).path.getD "undefined")
          (mergeEndpoint (mapFind? svc.endpoints endpoint)).method
          (match (mergeEndpoint (mapFind? svc.endpoints endpoint)).transformRequest with
           | some f => body.map f
           | none => body) now transport newPid with ⟨st1, out, n⟩
      rw [hf] at hfc
      simp only at hfc
      cases out with
      | ok r =>
          by_cases hz : responseValidationFails
              (mergeEndpoint (mapFind? svc.endpoints endpoint)).responseValidation
              (match (mergeEndpoint (mapFind? svc.endpoints endpoint)).transformResponse with
               | some f => f r.data
               | none => r.data) = true
          · simp [hz, hfc]
          · simp [hz, hfc]
      | joined pid => simpa using hfc
      | thrownErr e => simpa using hfc
      | maxRetries => simpa using hfc

/-- Claim C9, counterexample.  The claim states a mutation's response
is never stored in the response cache and never answers a later
request.  `mutate` funnels through `BinaryJSApi.request` and
`BinaryJSFetch.fetch` with the endpoint's own cache configuration, so
with caching enabled on the endpoint, the first mutation's response
(data `5`, one transport call) is cached under the mutation's key, and
an identical second mutation 1000 ms later (TTL 60000) is answered from
the cache with the FIRST mutation's data `5` — zero transport calls,
even though its transport would return `6`. -/
theorem c9_counterexample :
    mutateRun ⟨[]⟩ ⟨[], []⟩
      ⟨"", [("updateUser", ⟨"updateUser", "PUT", some ⟨true, some 60000⟩, none, none, none, none, none⟩)]⟩
      "updateUser" (some 1) {} 0 (fun _ => Except.ok 5) 0 =
      (⟨[]⟩, ⟨[("updateUser:PUT:1", ⟨5, 0⟩)], []⟩, .ok 5, 1) ∧
    mutateRun ⟨[]⟩ ⟨[("updateUser:PUT:1", ⟨5, 0⟩)], []⟩
      ⟨"", [("updateUser", ⟨"updateUser", "PUT", some ⟨true, some 60000⟩, none, none, none, none, none⟩)]⟩
      "updateUser" (some 1) {} 1000 (fun _ => Except.ok 6) 1 =
      (⟨[]⟩, ⟨[("updateUser:PUT:1", ⟨5, 0⟩)], []⟩, .ok 5, 0) := by
  constructor
  · decide
  · decide

/-- Claim C9, amended: a mutation's response is kept out of the
response cache only when the mutated endpoint's merged cache
configuration is disabled or absent; when the endpoint enables caching,
the mutation's successful response is stored in the response cache
under the mutation's request key (and, per the counterexample, answers
later identical requests within the TTL). -/
theorem c9_mutation_caching (cst : ClientState) (fetchSt : FetchState)
    (svc : ApiServiceConfig) (endpoint path method : String) (ttl : Option Nat)
    (retryOpt : Option RetryCfg) (body : Option Nat) (cfg : MutationConfig)
    (now v : Nat) (transport : Nat → Except Nat Nat) (newPid : Nat) :
    (cacheEnabled ⟨(mergeEndpoint (mapFind? svc.endpoints endpoint)).cache,
        (mergeEndpoint (mapFind? svc.endpoints endpoint)).retry⟩ = false →
      ((mutateRun cst fetchSt svc endpoint body cfg now transport newPid).2.1).cache =
        fetchSt.cache) ∧
    (mapFind? svc.endpoints endpoint =
        some ⟨path, method, some ⟨true, ttl⟩, retryOpt, none, none, none, none⟩ →
      (∀ i, transport i = Except.ok v) →
      cacheServe fetchSt.cache ⟨some ⟨true, ttl⟩, retryOpt⟩
        (fetchKey (svc.baseUrl ++ path) (some method) body) now = none →
      mapFind? fetchSt.pending (fetchKey (svc.baseUrl ++ path) (some method) body) = none →
      mapFind? ((mutateRun cst fetchSt svc endpoint body cfg now transport newPid).2.1).cache
        (fetchKey (svc.baseUrl ++ path) (some method) body) = some ⟨v, now⟩) := by
  constructor
  · intro h
    have hrc := requestRun_cache_not_enabled svc fetchSt endpoint body now transport newPid h
    simp only [mutateRun, mutateTransportPhase]
    rcases hr : requestRun svc fetchSt endpoint body now transport newPid with ⟨f1, out, n⟩
    rw [hr] at hrc
    cases out <;> simpa using hrc
  · intro hep htr hmiss hpend
    have hexec : executeRequest transport retryOpt = (1, .success v 0) := by
      cases retryOpt with
      | none => simp [executeRequest, attemptsOf, execGo, htr 0]
      | some r => simp [executeRequest, attemptsOf, execGo, htr 0]
    simp only [mutateRun, mutateTransportPhase, requestRun, hep, mergeEndpoint,
      objTruthy, Option.getD, requestValidationFails, responseValidationFails,
      fetchRun, fetchSync, hmiss, hpend, hexec, fetchComplete, cacheEnabled]
    simp [mapFind?_mapSet_self]

/-- Claim C9, amended, witness: a cache-disabled endpoint leaves the
cache untouched, a cache-enabled endpoint stores the mutation's
response. -/
theorem c9_witness :
    ((mutateRun ⟨[]⟩ ⟨[], []⟩
        ⟨"", [("logout", ⟨"logout", "POST", none, none, none, none, none, none⟩)]⟩
        "logout" (some 2) {} 0 (fun _ => Except.ok 8) 0).2.1).cache = [] ∧
    mapFind? ((mutateRun ⟨[]⟩ ⟨[], []⟩
        ⟨"", [("updateUser", ⟨"updateUser", "PUT", some ⟨true, some 60000⟩, none, none, none, none, none⟩)]⟩
        "updateUser" (some 3) {} 7 (fun _ => Except.ok 5) 0).2.1).cache
      (fetchKey ("" ++ "updateUser") (some "PUT") (some 3)) = some ⟨5, 7⟩ := by
  constructor
  · exact (c9_mutation_caching ⟨[]⟩ ⟨[], []⟩
      ⟨"", [("logout", ⟨"logout", "POST", none, none, none, none, none, none⟩)]⟩
      "logout" "logout" "POST" none none (some 2) {} 0 8 (fun _ => Except.ok 8) 0).1 rfl
  · exact (c9_mutation_caching ⟨[]⟩ ⟨[], []⟩
      ⟨"", [("updateUser", ⟨"updateUser", "PUT", some ⟨true, some 60000⟩, none, none, none, none, none⟩)]⟩
      "updateUser" "updateUser" "PUT" (some 60000) none (some 3) {} 7 5
      (fun _ => Except.ok 5) 0).2 rfl (fun _ => rfl) (by decide) rfl

/-! ### Claim C10 -/

/-- Claim C10: on an endpoint with caching enabled and a response
validator, a fetched response rejected by the validator poisons the
cache.  The first request (transport returns `v`, `val v = false`)
makes one transport call, throws the response-validation error — but
the inner `fetch` has already cached `v` in its `.then` handler, which
runs before `request`'s validation.  Every later request for the same
key within the TTL then (second conjunct, for an arbitrary transport)
makes zero transport calls and throws the same validation error again,
because the fetch layer (third conjunct) answers it with the invalid
data `v` as a cache hit. -/
theorem c10_validation_cache_poisoning (val : Nat → Bool) (v t now now2 : Nat)
    (svc : ApiServiceConfig) (endpoint path method : String) (body : Option Nat)
    (tr2 : Nat → Except Nat Nat)
    (hep : mapFind? svc.endpoints endpoint =
      some ⟨path, method, some ⟨true, some t⟩, none, none, some val, none, none⟩)
    (hval : val v = false)
    (hfresh : cacheFresh ⟨v, now⟩ (some t) now2 = true) :
    requestRun svc ⟨[], []⟩ endpoint body now (fun _ => Except.ok v) 0 =
      (⟨[(fetchKey (svc.baseUrl ++ path) (some method) body, ⟨v, now⟩)], []⟩,
       .responseValidationFailed, 1) ∧
    requestRun svc ⟨[(fetchKey (svc.baseUrl ++ path) (some method) body, ⟨v, now⟩)], []⟩
        endpoint body now2 tr2 1 =
      (⟨[(fetchKey (svc.baseUrl ++ path) (some method) body, ⟨v, now⟩)], []⟩,
       .responseValidationFailed, 0) ∧
    fetchRun ⟨[(fetchKey (svc.baseUrl ++ path) (some method) body, ⟨v, now⟩)], []⟩
        ⟨some ⟨true, some t⟩, none⟩ (svc.baseUrl ++ path) (some method) body now2 tr2 1 =
      (⟨[(fetchKey (svc.baseUrl ++ path) (some method) body, ⟨v, now⟩)], []⟩,
       .ok ⟨v, now, true, 0⟩, 0) := by
  have hhit : cacheServe
      [(fetchKey (svc.baseUrl ++ path) (some method) body, (⟨v, now⟩ : CacheEntry))]
      ⟨some ⟨true, some t⟩, none⟩ (fetchKey (svc.baseUrl ++ path) (some method) body)
      now2 = some ⟨v, now, true, 0⟩ := by
    simp [cacheServe, cacheEnabled, cacheTtl, mapFind?, hfresh]
  have hrun3 : fetchRun ⟨[(fetchKey (svc.baseUrl ++ path) (some method) body, ⟨v, now⟩)], []⟩
      ⟨some ⟨true, some t⟩, none⟩ (svc.baseUrl ++ path) (some method) body now2 tr2 1 =
      (⟨[(fetchKey (svc.baseUrl ++ path) (some method) body, ⟨v, now⟩)], []⟩,
       .ok ⟨v, now, true, 0⟩, 0) := by
    simp [fetchRun, fetchSync, hhit]
  refine ⟨?_, ?_, hrun3⟩
  · have hmiss : cacheServe ([] : List (String × CacheEntry)) ⟨some ⟨true, some t⟩, none⟩
        (fetchKey (svc.baseUrl ++ path) (some method) body) now = none := by
      simp [cacheServe, mapFind?]
    have hexec : executeRequest (fun _ => Except.ok v) (none : Option RetryCfg) =
        (1, .success v 0) := by
      simp [executeRequest, attemptsOf, execGo]
    simp [requestRun, hep, mergeEndpoint, objTruthy, requestValidationFails,
      responseValidationFails, fetchRun, fetchSync, hmiss, mapFind?, hexec,
      fetchComplete, cacheEnabled, mapSet, mapDelete, hval]
  · simp [requestRun, hep, mergeEndpoint, objTruthy, requestValidationFails,
      responseValidationFails, hrun3, hval]

/-- Claim C10, witness: a validator rejecting everything, `v = 1`,
`ttl = 5000`, second request at 1000 ms. -/
theorem c10_witness :
    mapFind? (⟨"", [("getUser", ⟨"getUser", "GET", some ⟨true, some 5000⟩, none,
        none, some (fun _ => false), none, none⟩)]⟩ : ApiServiceConfig).endpoints "getUser" =
      some ⟨"getUser", "GET", some ⟨true, some 5000⟩, none, none, some (fun _ => false), none, none⟩ ∧
    (fun _ => false : Nat → Bool) 1 = false ∧
    cacheFresh ⟨1, 0⟩ (some 5000) 1000 = true ∧
    requestRun ⟨"", [("getUser", ⟨"getUser", "GET", some ⟨true, some 5000⟩, none,
        none, some (fun _ => false), none, none⟩)]⟩ ⟨[], []⟩ "getUser" none 0
        (fun _ => Except.ok 1) 0 =
      (⟨[(fetchKey ("" ++ "getUser") (some "GET") none, ⟨1, 0⟩)], []⟩,
       .responseValidationFailed, 1) ∧
    requestRun ⟨"", [("getUser", ⟨"getUser", "GET", some ⟨true, some 5000⟩, none,
        none, some (fun _ => false), none, none⟩)]⟩
        ⟨[(fetchKey ("" ++ "getUser") (some "GET") none, ⟨1, 0⟩)], []⟩ "getUser" none 1000
        (fun _ => Except.ok 9) 1 =
      (⟨[(fetchKey ("" ++ "getUser") (some "GET") none, ⟨1, 0⟩)], []⟩,
       .responseValidationFailed, 0) := by
  have h := c10_validation_cache_poisoning (fun _ => false) 1 5000 0 1000
    ⟨"", [("getUser", ⟨"getUser", "GET", some ⟨true, some 5000⟩, none,
        none, some (fun _ => false), none, none⟩)]⟩
    "getUser" "getUser" "GET" none (fun _ => Except.ok 9) rfl rfl (by decide)
  exact ⟨rfl, rfl, by decide, h.1, h.2.1⟩

end BinaryJS
